import Mathlib

/-!
# Shallow embedding of the Dynamic Route Optimization and Emission Reduction System

This file embeds the core logic of the repository (models.py, route_optimizer.py,
the provider fallback payloads of api_clients.py, and the route summary of app.py)
into Lean and proves the specified properties about it.

Modelling conventions:
* Python floats are modelled as exact rationals (`ℚ`); every numeric literal of the
  source (0.9, 1.1, 1.15, 0.2, …) is carried exactly.
* Python dictionaries of numbers are modelled as association lists (`WMap`) with
  `dict.get(key, default)` modelled by `wget`.
* Python runtime exceptions that the source can raise (`ZeroDivisionError` on
  `current_load / cargo_capacity` with a zero capacity, `KeyError` / `IndexError` /
  `TypeError` on subscripting a malformed provider response) are modelled by
  `Except PyError`.
* The traffic provider response is modelled by a JSON-like value (`JValue`) so that
  malformed shapes (missing keys, empty arrays) are expressible; the weather
  provider response is a mapping from top-level keys ("weather", "air") to numeric
  maps, looked up with `KeyError` semantics.
* The two network providers are pure parameters of `optimize_route`; the calls the
  optimizer issues to them are recorded in a trace (`ProviderCall`), one entry per
  `get_data` invocation, in invocation order.
-/

/-- models.py `Vehicle` (dataclass). -/
structure Vehicle where
  id : String
  type : String
  fuel_type : String
  fuel_efficiency : ℚ
  cargo_capacity : ℚ
  current_load : ℚ
deriving DecidableEq, Repr

/-- models.py `Location` (dataclass). -/
structure Location where
  lat : ℚ
  lon : ℚ
  address : String
deriving DecidableEq, Repr

/-- A Python dict mapping string keys to numbers. -/
abbrev WMap := List (String × ℚ)

/-- Python `d.get(k, default)` on a numeric dict. -/
def wget (m : WMap) (k : String) (default : ℚ) : ℚ :=
  match m.find? (fun p => p.1 == k) with
  | some p => p.2
  | none => default

/-- The Python runtime exceptions the embedded code can raise. -/
inductive PyError where
  | zeroDivisionError
  | keyError (key : String)
  | indexError
  | typeError
deriving DecidableEq, Repr

/-- models.py `RouteSegment` (dataclass); `end` is a Lean keyword, renamed `end_`.
The source assigns `emissions` after construction (two-phase build); the embedding
builds the completed segment, which is the only form escaping `optimize_route`. -/
structure RouteSegment where
  start : Location
  end_ : Location
  distance : ℚ
  duration : ℚ
  traffic_delay : ℚ
  emissions : ℚ
deriving DecidableEq, Repr

/-- models.py `Route` (dataclass). -/
structure Route where
  segments : List RouteSegment
  total_distance : ℚ
  total_duration : ℚ
  total_emissions : ℚ
  weather_conditions : WMap
  air_quality : WMap
deriving DecidableEq, Repr

/-- route_optimizer.py lines 8-12: `EmissionCalculator.emission_factors`. -/
def emission_factors : List (String × ℚ) :=
  [("diesel_truck", 9/10), ("electric_truck", 0), ("hybrid_truck", 3/5)]

/-- route_optimizer.py line 16: `self.emission_factors.get(key, 0)`. -/
def emission_factors_get (key : String) : ℚ :=
  match emission_factors.find? (fun p => p.1 == key) with
  | some p => p.2
  | none => 0

/-- route_optimizer.py lines 19-23: the weather factor accumulated inside
`calculate_emissions` (starts at 1.0, `*= 1.1` if precipitation > 0,
`*= 1.15` if wind_speed > 20). -/
def weather_factor (weather_conditions : WMap) : ℚ :=
  let f0 : ℚ := 1
  let f1 := if wget weather_conditions "precipitation" 0 > 0 then f0 * (11/10) else f0
  if wget weather_conditions "wind_speed" 0 > 20 then f1 * (23/20) else f1

/-- route_optimizer.py lines 14-28: `EmissionCalculator.calculate_emissions`.
Python raises `ZeroDivisionError` on `current_load / cargo_capacity` exactly when
`cargo_capacity == 0`; a negative capacity divides silently. -/
def calculate_emissions (vehicle : Vehicle) (distance : ℚ)
    (weather_conditions : WMap) : Except PyError ℚ :=
  let base_emission := distance * emission_factors_get (vehicle.fuel_type ++ "_truck")
  if vehicle.cargo_capacity = 0 then
    .error .zeroDivisionError
  else
    let load_factor := 1 + vehicle.current_load / vehicle.cargo_capacity * (1/5)
    .ok (base_emission * weather_factor weather_conditions * load_factor)

/-- A JSON-like value, used for the traffic provider response so malformed
shapes (missing keys, empty arrays, wrong types) are expressible. -/
inductive JValue where
  | num (q : ℚ)
  | arr (elems : List JValue)
  | obj (fields : List (String × JValue))

/-- Python `value[key]` on a JSON value: `KeyError` on a missing dict key,
`TypeError` when the value is not a dict. -/
def JValue.getKey : JValue → String → Except PyError JValue
  | .obj fields, key =>
    match fields.find? (fun p => p.1 == key) with
    | some p => .ok p.2
    | none => .error (.keyError key)
  | _, _ => .error .typeError

/-- Python `value[i]` on a JSON value: `IndexError` out of range,
`TypeError` when the value is not a list. -/
def JValue.getIdx : JValue → Nat → Except PyError JValue
  | .arr elems, i =>
    match elems.get? i with
    | some v => .ok v
    | none => .error .indexError
  | _, _ => .error .typeError

/-- Numeric payload of a JSON leaf; `TypeError` otherwise. -/
def JValue.asNum : JValue → Except PyError ℚ
  | .num q => .ok q
  | _ => .error .typeError

/-- route_optimizer.py lines 50-52: `traffic_data["routes"][0]["summary"][field]`. -/
def traffic_summary_field (traffic_data : JValue) (field : String) : Except PyError ℚ := do
  let routes ← traffic_data.getKey "routes"
  let first ← routes.getIdx 0
  let summary ← first.getKey "summary"
  (← summary.getKey field).asNum

/-- The weather provider response: top-level keys ("weather", "air") mapped to
numeric dicts. Subscripting a missing key raises `KeyError` (app accesses
`weather_data["weather"]` and `weather_data["air"]`). -/
structure WeatherResp where
  fields : List (String × WMap)
deriving DecidableEq, Repr

/-- Python `weather_data[key]`. -/
def WeatherResp.get (r : WeatherResp) (key : String) : Except PyError WMap :=
  match r.fields.find? (fun p => p.1 == key) with
  | some p => .ok p.2
  | none => .error (.keyError key)

/-- One loop iteration of route_optimizer.py lines 41-74 for a single
destination: extract the three summary fields of the traffic response
(in source order), look up the weather dict, compute emissions, build the
single-segment `Route`. Unit conversions are the `/ 1000` and `/ 60` of the source. -/
def route_for_leg (traffic_data : JValue) (weather_data : WeatherResp)
    (vehicle : Vehicle) (current_location destination : Location) :
    Except PyError Route :=
  match traffic_summary_field traffic_data "lengthInMeters" with
  | .error e => .error e
  | .ok lengthInMeters =>
  match traffic_summary_field traffic_data "travelTimeInSeconds" with
  | .error e => .error e
  | .ok travelTimeInSeconds =>
  match traffic_summary_field traffic_data "trafficDelayInSeconds" with
  | .error e => .error e
  | .ok trafficDelayInSeconds =>
  match weather_data.get "weather" with
  | .error e => .error e
  | .ok weather =>
  match calculate_emissions vehicle (lengthInMeters / 1000) weather with
  | .error e => .error e
  | .ok emissions =>
  match weather_data.get "air" with
  | .error e => .error e
  | .ok air =>
    let segment : RouteSegment :=
      { start := current_location
        end_ := destination
        distance := lengthInMeters / 1000
        duration := travelTimeInSeconds / 60
        traffic_delay := trafficDelayInSeconds / 60
        emissions := emissions }
    .ok { segments := [segment]
          total_distance := segment.distance
          total_duration := segment.duration
          total_emissions := segment.emissions
          weather_conditions := weather
          air_quality := air }

/-- A call the optimizer issues to a provider (`get_data` invocation). -/
inductive ProviderCall where
  | traffic (start destination : Location)
  | weather (location : Location)
deriving DecidableEq, Repr

/-- route_optimizer.py lines 36-76: the destination loop, with the providers as
pure functions and a trace of provider calls in invocation order. Each iteration
issues the traffic call, then the weather call (source lines 43-44), before any
field extraction; an extraction or emission error aborts the loop and propagates. -/
def optimize_route_aux (traffic_api : Location → Location → JValue)
    (weather_api : Location → WeatherResp) (vehicle : Vehicle) :
    Location → List Location → List ProviderCall × Except PyError (List Route)
  | _, [] => ([], .ok [])
  | current_location, destination :: rest =>
    let traffic_data := traffic_api current_location destination
    let weather_data := weather_api destination
    match route_for_leg traffic_data weather_data vehicle current_location destination with
    | .error e =>
      ([.traffic current_location destination, .weather destination], .error e)
    | .ok route =>
      let tail := optimize_route_aux traffic_api weather_api vehicle destination rest
      (.traffic current_location destination :: .weather destination :: tail.1,
       tail.2.map (route :: ·))

/-- route_optimizer.py `RouteOptimizer.optimize_route`: the returned route list. -/
def optimize_route (traffic_api : Location → Location → JValue)
    (weather_api : Location → WeatherResp) (vehicle : Vehicle)
    (start : Location) (destinations : List Location) : Except PyError (List Route) :=
  (optimize_route_aux traffic_api weather_api vehicle start destinations).2

/-- The provider calls `optimize_route` issues, in invocation order. -/
def provider_calls (traffic_api : Location → Location → JValue)
    (weather_api : Location → WeatherResp) (vehicle : Vehicle)
    (start : Location) (destinations : List Location) : List ProviderCall :=
  (optimize_route_aux traffic_api weather_api vehicle start destinations).1

/-- The traffic lookups among the provider calls, as (start, end) pairs, in order. -/
def traffic_lookups (traffic_api : Location → Location → JValue)
    (weather_api : Location → WeatherResp) (vehicle : Vehicle)
    (start : Location) (destinations : List Location) : List (Location × Location) :=
  (provider_calls traffic_api weather_api vehicle start destinations).filterMap
    (fun c => match c with
      | .traffic a b => some (a, b)
      | .weather _ => none)

/-- api_clients.py lines 65-75: `TomTomAPI._get_simulated_route_data`, the
documented traffic fallback payload. -/
def simulated_route_data : JValue :=
  .obj [("routes", .arr [
    .obj [("summary", .obj [
      ("lengthInMeters", .num 50000),
      ("travelTimeInSeconds", .num 3600),
      ("trafficDelayInSeconds", .num 300)])]])]

/-- api_clients.py lines 107-118: `WeatherAPI._get_simulated_weather_data`, the
documented weather fallback payload. -/
def simulated_weather_data : WeatherResp :=
  { fields := [
      ("weather", [("precipitation", 0), ("wind_speed", 10), ("temperature", 25)]),
      ("air", [("aqi", 50)])] }

/-- app.py lines 64-90: the summary dict built by
`DynamicRoutingSystem.get_route_summary` (the `try` body; with mapping fields
present no exception can occur, so the zeroed `except` dict is unreachable). -/
structure RouteSummary where
  total_distance_km : ℚ
  total_duration_mins : ℚ
  total_emissions_kg : ℚ
  weather_alerts : Bool
  air_quality_alerts : Bool
deriving DecidableEq, Repr

/-- app.py `get_route_summary`. -/
def get_route_summary (route : Route) : RouteSummary :=
  { total_distance_km := route.total_distance
    total_duration_mins := route.total_duration
    total_emissions_kg := route.total_emissions
    weather_alerts :=
      decide (wget route.weather_conditions "precipitation" 0 > 10) ||
      decide (wget route.weather_conditions "wind_speed" 0 > 30)
    air_quality_alerts := decide (wget route.air_quality "aqi" 0 > 100) }

/-- The fuel-factor table as the spec words it (diesel→0.9, electric→0.0,
hybrid→0.6, unrecognized→0), for comparison with the code lookup
`emission_factors_get (fuel_type ++ "_truck")`. -/
def spec_fuel_factor (fuel_type : String) : ℚ :=
  if fuel_type = "diesel" then 9/10
  else if fuel_type = "electric" then 0
  else if fuel_type = "hybrid" then 3/5
  else 0

instance {ε α : Type} [DecidableEq ε] [DecidableEq α] : DecidableEq (Except ε α)
  | .error e, .error f =>
    if h : e = f then .isTrue (by rw [h]) else .isFalse (by intro hc; cases hc; exact h rfl)
  | .error _, .ok _ => .isFalse (by intro hc; cases hc)
  | .ok _, .error _ => .isFalse (by intro hc; cases hc)
  | .ok a, .ok b =>
    if h : a = b then .isTrue (by rw [h]) else .isFalse (by intro hc; cases hc; exact h rfl)

/-- A vehicle violating the expected 0 ≤ current_load invariant: its load factor
is 1 + (-10/1)·(1/5) = -1, so emissions decrease with distance. -/
def non_monotone_vehicle : Vehicle :=
  { id := "cex7", type := "truck", fuel_type := "diesel", fuel_efficiency := 10,
    cargo_capacity := 1, current_load := -10 }

/-- A vehicle with cargo_capacity = 0: the source divides by it unguarded. -/
def zero_capacity_vehicle : Vehicle :=
  { id := "z4", type := "truck", fuel_type := "diesel", fuel_efficiency := 10,
    cargo_capacity := 0, current_load := 100 }

/-- A vehicle with negative cargo_capacity: the source divides silently. -/
def negative_capacity_vehicle : Vehicle :=
  { id := "n4", type := "truck", fuel_type := "diesel", fuel_efficiency := 10,
    cargo_capacity := -1, current_load := 10 }

/-- Concrete locations for witnesses and counterexamples. -/
def locA : Location := ⟨0, 0, "A"⟩

def locB : Location := ⟨1, 1, "B"⟩

def witness_vehicle : Vehicle :=
  { id := "wv", type := "truck", fuel_type := "diesel", fuel_efficiency := 10,
    cargo_capacity := 1000, current_load := 0 }

/-- The weather dict of the simulated weather fallback. -/
def sim_weather_map : WMap :=
  [("precipitation", 0), ("wind_speed", 10), ("temperature", 25)]

def witness_segment : RouteSegment := ⟨locA, locB, 50, 60, 5, 45⟩

def witness_route : Route :=
  ⟨[witness_segment], 50, 60, 45, sim_weather_map, [("aqi", 50)]⟩

/-- A traffic response with no "routes" key at all. -/
def malformed_no_routes : JValue := .obj []

/-- A traffic response whose "routes" list is empty. -/
def malformed_empty_routes : JValue := .obj [("routes", .arr [])]

/-- A traffic response whose first route lacks the "summary" key. -/
def malformed_no_summary : JValue := .obj [("routes", .arr [.obj []])]

theorem append_truck_cancel {a b : String} (h : a ++ "_truck" = b ++ "_truck") :
    a = b := by
  have hd := congrArg String.data h
  simp only [String.data_append] at hd
  exact String.ext (List.append_cancel_right hd)

theorem emission_factors_get_truck (ft : String) :
    emission_factors_get (ft ++ "_truck") = spec_fuel_factor ft := by
  by_cases h1 : ft = "diesel"
  · subst h1; rfl
  by_cases h2 : ft = "electric"
  · subst h2; rfl
  by_cases h3 : ft = "hybrid"
  · subst h3; rfl
  have n1 : (("diesel_truck" : String) == ft ++ "_truck") = false := by
    simp only [beq_eq_false_iff_ne, ne_eq]
    intro he
    have el : ("diesel_truck" : String) = "diesel" ++ "_truck" := rfl
    rw [el] at he
    exact h1 (append_truck_cancel he).symm
  have n2 : (("electric_truck" : String) == ft ++ "_truck") = false := by
    simp only [beq_eq_false_iff_ne, ne_eq]
    intro he
    have el : ("electric_truck" : String) = "electric" ++ "_truck" := rfl
    rw [el] at he
    exact h2 (append_truck_cancel he).symm
  have n3 : (("hybrid_truck" : String) == ft ++ "_truck") = false := by
    simp only [beq_eq_false_iff_ne, ne_eq]
    intro he
    have el : ("hybrid_truck" : String) = "hybrid" ++ "_truck" := rfl
    rw [el] at he
    exact h3 (append_truck_cancel he).symm
  simp only [emission_factors_get, emission_factors, List.find?, n1, n2, n3,
    spec_fuel_factor, h1, h2, h3, if_false]

theorem calculate_emissions_ok (v : Vehicle) (d : ℚ) (w : WMap)
    (hcap : v.cargo_capacity ≠ 0) :
    calculate_emissions v d w =
      .ok (d * spec_fuel_factor v.fuel_type * weather_factor w *
        (1 + v.current_load / v.cargo_capacity * (1/5))) := by
  simp only [calculate_emissions, emission_factors_get_truck, if_neg hcap]

theorem weather_factor_empty : weather_factor [] = 1 := by
  have h1 : wget [] "precipitation" 0 = 0 := rfl
  have h2 : wget [] "wind_speed" 0 = 0 := rfl
  rw [weather_factor, h1, h2]
  norm_num

theorem weather_factor_rain_wind :
    weather_factor [("precipitation", 5), ("wind_speed", 25)] = 253/200 := by
  have h1 : wget [("precipitation", 5), ("wind_speed", 25)] "precipitation" 0 = 5 := rfl
  have h2 : wget [("precipitation", 5), ("wind_speed", 25)] "wind_speed" 0 = 25 := rfl
  rw [weather_factor, h1, h2]
  norm_num

theorem weather_factor_sim : weather_factor sim_weather_map = 1 := by
  have h1 : wget sim_weather_map "precipitation" 0 = 0 := rfl
  have h2 : wget sim_weather_map "wind_speed" 0 = 10 := rfl
  rw [weather_factor, h1, h2]
  norm_num

theorem spec_fuel_factor_nonneg (ft : String) : 0 ≤ spec_fuel_factor ft := by
  unfold spec_fuel_factor
  split_ifs <;> norm_num

theorem weather_factor_nonneg (w : WMap) : 0 ≤ weather_factor w := by
  unfold weather_factor
  dsimp only
  split_ifs <;> norm_num

theorem route_for_leg_ok_spec (td : JValue) (wd : WeatherResp) (v : Vehicle)
    (cur d : Location) (r : Route) (h : route_for_leg td wd v cur d = .ok r) :
    ∃ lm tts tds wmap em air,
      traffic_summary_field td "lengthInMeters" = .ok lm ∧
      traffic_summary_field td "travelTimeInSeconds" = .ok tts ∧
      traffic_summary_field td "trafficDelayInSeconds" = .ok tds ∧
      wd.get "weather" = .ok wmap ∧
      calculate_emissions v (lm / 1000) wmap = .ok em ∧
      wd.get "air" = .ok air ∧
      r = ⟨[⟨cur, d, lm / 1000, tts / 60, tds / 60, em⟩],
           lm / 1000, tts / 60, em, wmap, air⟩ := by
  unfold route_for_leg at h
  split at h
  · exact absurd h (by simp)
  next lm heq1 =>
  split at h
  · exact absurd h (by simp)
  next tts heq2 =>
  split at h
  · exact absurd h (by simp)
  next tds heq3 =>
  split at h
  · exact absurd h (by simp)
  next wmap heq4 =>
  split at h
  · exact absurd h (by simp)
  next em heq5 =>
  split at h
  · exact absurd h (by simp)
  next air heq6 =>
  injection h with h
  exact ⟨lm, tts, tds, wmap, em, air, heq1, heq2, heq3, heq4, heq5, heq6, h.symm⟩

/-- Master induction on the destination loop: an `ok` outcome yields one
single-segment route per destination with matching totals, cursor-chained
endpoints, and traffic lookups on exactly the consecutive pairs in order. -/
theorem optimize_route_aux_spec (t : Location → Location → JValue)
    (w : Location → WeatherResp) (v : Vehicle) (ds : List Location) :
    ∀ (cur : Location) (routes : List Route),
      (optimize_route_aux t w v cur ds).2 = .ok routes →
      routes.length = ds.length ∧
      routes.map (fun r => r.segments.map (fun sg => (sg.start, sg.end_))) =
        (List.zip (cur :: ds) ds).map (fun p => [p]) ∧
      (optimize_route_aux t w v cur ds).1.filterMap
        (fun c => match c with
          | .traffic a b => some (a, b)
          | .weather _ => none) = List.zip (cur :: ds) ds ∧
      ∀ r ∈ routes,
        r.total_distance = (r.segments.map RouteSegment.distance).sum ∧
        r.total_duration = (r.segments.map RouteSegment.duration).sum ∧
        r.total_emissions = (r.segments.map RouteSegment.emissions).sum := by
  induction ds with
  | nil =>
    intro cur routes h
    simp only [optimize_route_aux] at h
    injection h with h
    subst h
    simp [optimize_route_aux]
  | cons d rest ih =>
    intro cur routes h
    simp only [optimize_route_aux] at h ⊢
    split at h
    · exact absurd h (by simp)
    next route hleg =>
      dsimp only at h
      rcases htail : (optimize_route_aux t w v d rest).2 with e | rs
      · rw [htail] at h
        exact absurd h (by simp [Except.map])
      rw [htail] at h
      simp only [Except.map] at h
      injection h with h
      subst h
      obtain ⟨hlen, hmap, hcalls, htot⟩ := ih d rs htail
      obtain ⟨lm, tts, tds, wmap, em, air, _, _, _, _, _, _, hr⟩ :=
        route_for_leg_ok_spec _ _ _ _ _ _ hleg
      subst hr
      refine ⟨by simp [hlen], ?_, ?_, ?_⟩
      · simp [List.zip_cons_cons, hmap]
      · simp [List.filterMap_cons, hcalls, List.zip_cons_cons]
      · intro r hr
        rcases List.mem_cons.1 hr with hhead | hmem
        · subst hhead
          simp
        · exact htot r hmem

theorem route_for_leg_sim :
    route_for_leg simulated_route_data simulated_weather_data witness_vehicle
      locA locB = .ok witness_route := by
  have h1 : traffic_summary_field simulated_route_data "lengthInMeters" =
      .ok 50000 := rfl
  have h2 : traffic_summary_field simulated_route_data "travelTimeInSeconds" =
      .ok 3600 := rfl
  have h3 : traffic_summary_field simulated_route_data "trafficDelayInSeconds" =
      .ok 300 := rfl
  have h4 : simulated_weather_data.get "weather" = .ok sim_weather_map := rfl
  have h5 : calculate_emissions witness_vehicle ((50000 : ℚ) / 1000)
      sim_weather_map = .ok 45 := by
    rw [calculate_emissions_ok _ _ _ (by norm_num [witness_vehicle]),
      weather_factor_sim]
    have hsf : spec_fuel_factor witness_vehicle.fuel_type = 9/10 := rfl
    rw [hsf]
    norm_num [witness_vehicle]
  have h6 : simulated_weather_data.get "air" = .ok [("aqi", 50)] := rfl
  unfold route_for_leg
  simp only [h1, h2, h3, h4, h5, h6]
  simp only [witness_route, witness_segment, Route.mk.injEq, RouteSegment.mk.injEq]
  norm_num

theorem optimize_route_sim :
    optimize_route (fun _ _ => simulated_route_data)
      (fun _ => simulated_weather_data) witness_vehicle locA [locB] =
      .ok [witness_route] := by
  unfold optimize_route optimize_route_aux
  dsimp only
  rw [route_for_leg_sim]
  rfl

/-- C1: for cargo_capacity > 0 and distance ≥ 0, `calculate_emissions` returns
distance × factor(fuel_type) × weather multiplier × (1 + (load/capacity)·0.2),
where the effective factor table maps diesel→0.9, electric→0.0, hybrid→0.6 and
any other fuel type to 0; in particular diesel at 100 km with zero load and no
weather yields exactly 90 kg, and electric yields 0 kg at every distance. -/
theorem calculate_emissions_spec (v : Vehicle) (d : ℚ) (w : WMap)
    (hcap : 0 < v.cargo_capacity) (hd : 0 ≤ d) :
    calculate_emissions v d w =
      .ok (d * spec_fuel_factor v.fuel_type * weather_factor w *
        (1 + v.current_load / v.cargo_capacity * (1/5))) ∧
    (∀ ft, emission_factors_get (ft ++ "_truck") = spec_fuel_factor ft) ∧
    spec_fuel_factor "diesel" = 9/10 ∧ spec_fuel_factor "electric" = 0 ∧
    spec_fuel_factor "hybrid" = 3/5 ∧
    (∀ ft, ft ≠ "diesel" → ft ≠ "electric" → ft ≠ "hybrid" → spec_fuel_factor ft = 0) ∧
    (v.fuel_type = "diesel" → v.current_load = 0 → calculate_emissions v 100 [] = .ok 90) ∧
    (∀ d2 w2, v.fuel_type = "electric" → calculate_emissions v d2 w2 = .ok 0) := by
  have hne := ne_of_gt hcap
  refine ⟨calculate_emissions_ok v d w hne, emission_factors_get_truck,
    rfl, rfl, rfl, ?_, ?_, ?_⟩
  · intro ft f1 f2 f3
    simp [spec_fuel_factor, f1, f2, f3]
  · intro hft hload
    rw [calculate_emissions_ok v 100 [] hne, hft, hload]
    have hsf : spec_fuel_factor "diesel" = 9/10 := rfl
    rw [hsf, weather_factor_empty]
    norm_num
  · intro d2 w2 hft
    rw [calculate_emissions_ok v d2 w2 hne, hft]
    have hsf : spec_fuel_factor "electric" = 0 := rfl
    rw [hsf]
    norm_num

theorem calculate_emissions_spec_witness :
    calculate_emissions ⟨"w1", "truck", "diesel", 10, 1000, 0⟩ 100 [] = .ok 90 :=
  (calculate_emissions_spec ⟨"w1", "truck", "diesel", 10, 1000, 0⟩ 100 []
    (by norm_num) (by norm_num)).2.2.2.2.2.2.1 rfl rfl

/-- C2: every Route produced by optimize_route has total_distance equal to the
sum of the distances of its segments, and analogously for duration and emissions. -/
theorem route_totals_eq_segment_sums (t : Location → Location → JValue)
    (w : Location → WeatherResp) (v : Vehicle) (s : Location)
    (ds : List Location) (routes : List Route)
    (h : optimize_route t w v s ds = .ok routes) :
    ∀ r ∈ routes,
      r.total_distance = (r.segments.map RouteSegment.distance).sum ∧
      r.total_duration = (r.segments.map RouteSegment.duration).sum ∧
      r.total_emissions = (r.segments.map RouteSegment.emissions).sum :=
  (optimize_route_aux_spec t w v ds s routes h).2.2.2

theorem route_totals_eq_segment_sums_witness :
    witness_route.total_distance =
      (witness_route.segments.map RouteSegment.distance).sum ∧
    witness_route.total_duration =
      (witness_route.segments.map RouteSegment.duration).sum ∧
    witness_route.total_emissions =
      (witness_route.segments.map RouteSegment.emissions).sum :=
  route_totals_eq_segment_sums (fun _ _ => simulated_route_data)
    (fun _ => simulated_weather_data) witness_vehicle locA [locB] [witness_route]
    optimize_route_sim witness_route (by simp)

/-- C3: optimize_route issues its traffic lookups on exactly the consecutive
pairs (start, D1), (D1, D2), …, (Dn-1, Dn) in that order, and returns exactly
one single-segment Route per destination, in input order, where segment i runs
from the previous cursor position to Di. -/
theorem optimize_route_ordering (t : Location → Location → JValue)
    (w : Location → WeatherResp) (v : Vehicle) (s : Location)
    (ds : List Location) (routes : List Route)
    (h : optimize_route t w v s ds = .ok routes) :
    traffic_lookups t w v s ds = List.zip (s :: ds) ds ∧
    routes.length = ds.length ∧
    routes.map (fun r => r.segments.map (fun sg => (sg.start, sg.end_))) =
      (List.zip (s :: ds) ds).map (fun p => [p]) :=
  ⟨(optimize_route_aux_spec t w v ds s routes h).2.2.1,
   (optimize_route_aux_spec t w v ds s routes h).1,
   (optimize_route_aux_spec t w v ds s routes h).2.1⟩

theorem optimize_route_ordering_witness :
    traffic_lookups (fun _ _ => simulated_route_data)
      (fun _ => simulated_weather_data) witness_vehicle locA [locB] =
      List.zip [locA, locB] [locB] ∧
    ([witness_route] : List Route).length = ([locB] : List Location).length ∧
    [witness_route].map (fun r => r.segments.map (fun sg => (sg.start, sg.end_))) =
      (List.zip [locA, locB] [locB]).map (fun p => [p]) :=
  optimize_route_ordering (fun _ _ => simulated_route_data)
    (fun _ => simulated_weather_data) witness_vehicle locA [locB] [witness_route]
    optimize_route_sim

/-- C4 evidence: at cargo_capacity = 0 the code performs the unguarded division
and raises ZeroDivisionError (no ConfigurationError exists, and the load
multiplier is not treated as 1.0); at cargo_capacity = -1 with load 10 it
silently computes -90 kg instead of the 90 kg a load multiplier of 1.0 would
give. -/
theorem calculate_emissions_capacity_unguarded :
    calculate_emissions zero_capacity_vehicle 100 [] = .error .zeroDivisionError ∧
    calculate_emissions negative_capacity_vehicle 100 [] = .ok (-90) ∧
    ((-90 : ℚ) ≠ 90) := by
  refine ⟨rfl, ?_, by norm_num⟩
  rw [calculate_emissions_ok _ _ _ (by norm_num [negative_capacity_vehicle]), weather_factor_empty]
  show Except.ok (100 * spec_fuel_factor "diesel" * 1 * (1 + 10 / (-1) * (1/5))) = _
  have hsf : spec_fuel_factor "diesel" = 9/10 := rfl
  rw [hsf]
  norm_num

/-- C5 evidence: on malformed provider responses, optimize_route propagates the
raw KeyError / IndexError of the subscript operations (no fallback value is
substituted and the failure reaches the caller), but no DataFormatError type
exists anywhere in the code, contrary to the claim. -/
theorem malformed_response_raises_raw_error :
    optimize_route (fun _ _ => malformed_no_routes)
      (fun _ => simulated_weather_data) witness_vehicle locA [locB] =
      .error (.keyError "routes") ∧
    optimize_route (fun _ _ => malformed_empty_routes)
      (fun _ => simulated_weather_data) witness_vehicle locA [locB] =
      .error .indexError ∧
    optimize_route (fun _ _ => malformed_no_summary)
      (fun _ => simulated_weather_data) witness_vehicle locA [locB] =
      .error (.keyError "summary") ∧
    optimize_route (fun _ _ => simulated_route_data)
      (fun _ => WeatherResp.mk []) witness_vehicle locA [locB] =
      .error (.keyError "weather") :=
  ⟨rfl, rfl, rfl, rfl⟩

/-- C6: the weather multiplier starts at 1.0, gains ×1.10 when precipitation > 0
and ×1.15 when wind_speed > 20, composing multiplicatively: precipitation 5 and
wind 25 give exactly 1.265 = 1.10 × 1.15 applied to the base emission;
precipitation 0 and wind 0 (or missing keys) give exactly 1.0. -/
theorem weather_factor_composition :
    (∀ w, weather_factor w =
      (if wget w "precipitation" 0 > 0 then (11/10 : ℚ) else 1) *
      (if wget w "wind_speed" 0 > 20 then (23/20 : ℚ) else 1)) ∧
    weather_factor [("precipitation", 5), ("wind_speed", 25)] = 253/200 ∧
    (11/10 : ℚ) * (23/20) = 253/200 ∧
    weather_factor [("precipitation", 0), ("wind_speed", 0)] = 1 ∧
    weather_factor [] = 1 ∧
    (∀ v d e, v.cargo_capacity ≠ 0 → calculate_emissions v d [] = .ok e →
      calculate_emissions v d [("precipitation", 5), ("wind_speed", 25)] =
        .ok (253/200 * e)) := by
  refine ⟨?_, weather_factor_rain_wind, by norm_num, ?_, weather_factor_empty, ?_⟩
  · intro w
    unfold weather_factor
    dsimp only
    split_ifs <;> ring
  · have h1 : wget [("precipitation", 0), ("wind_speed", 0)] "precipitation" 0 = 0 := rfl
    have h2 : wget [("precipitation", 0), ("wind_speed", 0)] "wind_speed" 0 = 0 := rfl
    rw [weather_factor, h1, h2]
    norm_num
  · intro v d e hc he
    rw [calculate_emissions_ok v d _ hc] at he ⊢
    injection he with he
    rw [← he, weather_factor_empty, weather_factor_rain_wind]
    congr 1
    ring

theorem weather_factor_composition_witness :
    calculate_emissions ⟨"w6", "truck", "diesel", 10, 1000, 0⟩ 100
      [("precipitation", 5), ("wind_speed", 25)] = .ok (253/200 * 90) :=
  weather_factor_composition.2.2.2.2.2 ⟨"w6", "truck", "diesel", 10, 1000, 0⟩ 100 90
    (by norm_num)
    (by rw [calculate_emissions_ok _ _ _ (by norm_num), weather_factor_empty]
        have hsf : spec_fuel_factor "diesel" = 9/10 := rfl
        rw [hsf]
        norm_num)

/-- C7 counterexample: for the vehicle with cargo_capacity 1 and current_load
-10 (fixed weather {}), distances 0 ≤ 1 give emissions 0 and -9/10, and
0 ≤ -9/10 fails, so `calculate_emissions` is not non-decreasing in distance
for every vehicle. -/
theorem calculate_emissions_not_monotone :
    (0 : ℚ) ≤ 1 ∧
    calculate_emissions non_monotone_vehicle 0 [] = .ok 0 ∧
    calculate_emissions non_monotone_vehicle 1 [] = .ok (-(9/10)) ∧
    ¬ ((0 : ℚ) ≤ -(9/10)) := by
  have hsf : spec_fuel_factor "diesel" = 9/10 := rfl
  refine ⟨by norm_num, ?_, ?_, by norm_num⟩
  · rw [calculate_emissions_ok _ _ _ (by norm_num [non_monotone_vehicle]), weather_factor_empty]
    norm_num
  · rw [calculate_emissions_ok _ _ _ (by norm_num [non_monotone_vehicle]), weather_factor_empty]
    show Except.ok (1 * spec_fuel_factor "diesel" * 1 * (1 + (-10) / 1 * (1/5))) = _
    rw [hsf]
    norm_num

/-- C7 amended: for every vehicle with cargo_capacity > 0 and current_load ≥ 0
(the expected data model invariant) and fixed weather, `calculate_emissions`
is non-decreasing in distance over 0 ≤ d1 ≤ d2. -/
theorem calculate_emissions_monotone (v : Vehicle) (w : WMap) (d1 d2 e1 e2 : ℚ)
    (hcap : 0 < v.cargo_capacity) (hload : 0 ≤ v.current_load)
    (hd1 : 0 ≤ d1) (h12 : d1 ≤ d2)
    (he1 : calculate_emissions v d1 w = .ok e1)
    (he2 : calculate_emissions v d2 w = .ok e2) : e1 ≤ e2 := by
  have hne := ne_of_gt hcap
  rw [calculate_emissions_ok _ _ _ hne] at he1 he2
  injection he1 with he1
  injection he2 with he2
  have hsf := spec_fuel_factor_nonneg v.fuel_type
  have hwf := weather_factor_nonneg w
  have hlf : (0 : ℚ) ≤ 1 + v.current_load / v.cargo_capacity * (1/5) := by
    have hdiv : (0 : ℚ) ≤ v.current_load / v.cargo_capacity :=
      div_nonneg hload hcap.le
    nlinarith
  rw [← he1, ← he2]
  have hK : (0 : ℚ) ≤ spec_fuel_factor v.fuel_type * weather_factor w *
      (1 + v.current_load / v.cargo_capacity * (1/5)) :=
    mul_nonneg (mul_nonneg hsf hwf) hlf
  nlinarith [mul_le_mul_of_nonneg_right h12 hK]

theorem calculate_emissions_monotone_witness : (9/10 : ℚ) ≤ 9/5 :=
  calculate_emissions_monotone ⟨"w7", "truck", "diesel", 10, 1000, 0⟩ [] 1 2
    (9/10) (9/5) (by norm_num) (by norm_num) (by norm_num) (by norm_num)
    (by rw [calculate_emissions_ok _ _ _ (by norm_num), weather_factor_empty]
        have hsf : spec_fuel_factor "diesel" = 9/10 := rfl
        rw [hsf]; norm_num)
    (by rw [calculate_emissions_ok _ _ _ (by norm_num), weather_factor_empty]
        have hsf : spec_fuel_factor "diesel" = 9/10 := rfl
        rw [hsf]; norm_num)

/-- C8: when the traffic provider always fails and thus always returns the
documented fallback payload, every segment of every returned route has distance
exactly 50 km, duration exactly 60 minutes, and traffic_delay exactly 5
minutes. -/
theorem fallback_applied_consistently (w : Location → WeatherResp) (v : Vehicle)
    (s : Location) (ds : List Location) (routes : List Route)
    (h : optimize_route (fun _ _ => simulated_route_data) w v s ds = .ok routes) :
    ∀ r ∈ routes, ∀ sg ∈ r.segments,
      sg.distance = 50 ∧ sg.duration = 60 ∧ sg.traffic_delay = 5 := by
  induction ds generalizing s routes with
  | nil =>
    simp only [optimize_route, optimize_route_aux] at h
    injection h with h
    subst h
    intro r hr
    exact absurd hr (by simp)
  | cons d rest ih =>
    simp only [optimize_route, optimize_route_aux] at h
    split at h
    · exact absurd h (by simp)
    next route hleg =>
      dsimp only at h
      rcases htail : (optimize_route_aux (fun _ _ => simulated_route_data) w v d rest).2
        with e | rs
      · rw [htail] at h
        exact absurd h (by simp [Except.map])
      rw [htail] at h
      simp only [Except.map] at h
      injection h with h
      subst h
      obtain ⟨lm, tts, tds, wmap, em, air, hlm, htts, htds, _, _, _, hr⟩ :=
        route_for_leg_ok_spec _ _ _ _ _ _ hleg
      have hlm50 : lm = 50000 := by
        have h0 : traffic_summary_field simulated_route_data "lengthInMeters" =
            Except.ok (ε := PyError) (50000 : ℚ) := rfl
        rw [h0] at hlm
        injection hlm with hlm
        exact hlm.symm
      have htts36 : tts = 3600 := by
        have h0 : traffic_summary_field simulated_route_data "travelTimeInSeconds" =
            Except.ok (ε := PyError) (3600 : ℚ) := rfl
        rw [h0] at htts
        injection htts with htts
        exact htts.symm
      have htds300 : tds = 300 := by
        have h0 : traffic_summary_field simulated_route_data "trafficDelayInSeconds" =
            Except.ok (ε := PyError) (300 : ℚ) := rfl
        rw [h0] at htds
        injection htds with htds
        exact htds.symm
      subst hr hlm50 htts36 htds300
      intro r hr
      rcases List.mem_cons.1 hr with hhead | hmem
      · subst hhead
        intro sg hsg
        rcases List.mem_singleton.1 hsg with hsg
        subst hsg
        refine ⟨by norm_num, by norm_num, by norm_num⟩
      · exact ih d rs htail r hmem

theorem fallback_applied_consistently_witness :
    witness_segment.distance = 50 ∧ witness_segment.duration = 60 ∧
    witness_segment.traffic_delay = 5 :=
  fallback_applied_consistently (fun _ => simulated_weather_data) witness_vehicle
    locA [locB] [witness_route] optimize_route_sim witness_route (by simp)
    witness_segment (by simp [witness_route])

/-- C9: an empty destination sequence yields an empty route list and no
provider calls at all. -/
theorem empty_destinations_no_calls (t : Location → Location → JValue)
    (w : Location → WeatherResp) (v : Vehicle) (s : Location) :
    optimize_route t w v s [] = .ok [] ∧ provider_calls t w v s [] = [] :=
  ⟨rfl, rfl⟩

/-- C10: get_route_summary copies the three totals unchanged, sets
weather_alerts iff precipitation > 10 or wind_speed > 30 (missing keys read as
0), and sets air_quality_alerts iff aqi > 100 (missing key read as 0). -/
theorem get_route_summary_spec (r : Route) :
    (get_route_summary r).total_distance_km = r.total_distance ∧
    (get_route_summary r).total_duration_mins = r.total_duration ∧
    (get_route_summary r).total_emissions_kg = r.total_emissions ∧
    ((get_route_summary r).weather_alerts = true ↔
      (wget r.weather_conditions "precipitation" 0 > 10 ∨
       wget r.weather_conditions "wind_speed" 0 > 30)) ∧
    ((get_route_summary r).air_quality_alerts = true ↔
      wget r.air_quality "aqi" 0 > 100) := by
  refine ⟨rfl, rfl, rfl, ?_, ?_⟩
  · simp [get_route_summary, Bool.or_eq_true, decide_eq_true_iff]
  · simp [get_route_summary, decide_eq_true_iff]
